import Mathlib

/-!
Verification development for the pomodoro/task-tracker backend.

The Django handlers of src/pomodoro_api (routers tasks.py, pomodoro.py,
analytics.py, auth.py, api.py) and the ORM models (tasks/models.py,
pomodoro/models.py, users/models.py) are shallowly embedded as pure Lean
functions over an explicit database state.  Conventions:

- Datetimes are pairs of a calendar-day index (Int) and a time-of-day
  (Nat), plus a flag recording whether the value is timezone-naive; the
  ORM lookup start_time__date corresponds to the day component.
- Machine floats produced by round(x, d) in the source are represented
  exactly by their integer numerator in units of 10^(-d) (tenths or
  hundredths), with round half up at rational precision.
- Fallible handlers return a response value (ok / unauthorized /
  notFound) together with the possibly-updated database.
- MySQL is the configured backend (settings.py), so ORDER BY on the
  priority CharField compares strings lexicographically and ascending
  ORDER BY puts NULL values first.
-/

namespace PomodoroApi

/-- Calendar datetime: day index, time of day, and timezone-naive flag. -/
structure DTime where
  day : Int
  tod : Nat
  naive : Bool
deriving DecidableEq, Repr

/-- Modelled from the spec: django.utils.timezone.make_aware is not in
src/; the spec says a timezone-naive end time is normalized to the
server's configured zone before persisting, which attaches the zone and
keeps the wall-clock value. -/
def make_aware (t : DTime) : DTime :=
  { t with naive := false }

/-- Lexicographic strict order on char lists (MySQL collation on the
lowercase ASCII words stored in the priority column). -/
def chLt : List Char → List Char → Bool
  | [], [] => false
  | [], _ :: _ => true
  | _ :: _, [] => false
  | a :: as, b :: bs => if a < b then true else if b < a then false else chLt as bs

/-- Lexicographic strict order on strings, as the database compares the
values of a CharField column. -/
def strLtB (a b : String) : Bool := chLt a.data b.data

/-- Round half up of the fraction a / b (for b > 0), used to represent
a Python round(x, d) result as an integer scaled by 10^d.  Python's
round breaks exact halves to even; no claim in this development
evaluates at an exact half, so the two rules agree on every input used. -/
def roundHalfUpDiv (a b : Int) : Int := Int.fdiv (2 * a + b) (2 * b)

-- ======================= data model (ORM rows) =======================

/-- users.models.User: the fields the embedded handlers read. -/
structure UserRec where
  id : Nat
  username : String
  email : String
deriving DecidableEq, Repr

/-- tasks.models.Category. -/
structure Category where
  id : Nat
  user_id : Nat
  name : String
  color_code : String
deriving DecidableEq, Repr

/-- tasks.models.Tag. -/
structure TagRec where
  id : Nat
  user_id : Nat
  name : String
  color_code : String
deriving DecidableEq, Repr

/-- tasks.models.Task. -/
structure Task where
  id : Nat
  user_id : Nat
  title : String
  description : Option String
  status : String
  priority : String
  due_date : Option Int
  estimated_pomodoros : Nat
  completed_pomodoros : Int
  created_at : DTime
  updated_at : DTime
  category_id : Option Nat
  tag_ids : List Nat
deriving DecidableEq, Repr

/-- pomodoro.models.PomodoroSession. -/
structure Session where
  id : Nat
  user_id : Nat
  task_id : Option Nat
  start_time : DTime
  end_time : Option DTime
  duration : Nat
  type : String
  is_completed : Bool
deriving DecidableEq, Repr

/-- The relational store backing all handlers. -/
structure Db where
  users : List UserRec
  tasks : List Task
  categories : List Category
  tags : List TagRec
  sessions : List Session
deriving Repr

-- ======================= auth =======================

/-- A bearer token as the verifier sees it: the payload's user_id field
(absent when the payload lacks it) plus validity of signature and expiry. -/
structure Token where
  user_id : Option Nat
  sigValid : Bool
  expired : Bool
deriving DecidableEq, Repr

/-- The Authorization header of a request. -/
inductive AuthHeader where
  | missing
  | malformed (s : String)
  | bearer (t : Token)
deriving DecidableEq, Repr

/-- Modelled from the spec: jwt.decode is library code not in src/; the
spec says verification fails closed, any decode error, signature
mismatch, or expiry yields no identity.  On success the payload is
returned and the handlers read its user_id field. -/
def jwtDecode (t : Token) : Option (Option Nat) :=
  if t.sigValid && !t.expired then some t.user_id else none

/-- get_user_id_from_token of routers/tasks.py, pomodoro.py, auth.py:
requires a Bearer header, decodes it, and returns payload.get of
user_id; any decode failure gives None. -/
def get_user_id_from_token (h : AuthHeader) : Option Nat :=
  match h with
  | .bearer t =>
    match jwtDecode t with
    | some payload => payload
    | none => none
  | _ => none

/-- AuthBearer.authenticate of api.py, guarding the tasks, pomodoro and
analytics routers. -/
def authBearer (h : AuthHeader) : Option Nat :=
  match h with
  | .bearer t =>
    match jwtDecode t with
    | some payload => payload
    | none => none
  | _ => none

/-- A well-formed bearer header carrying the given user id. -/
def authOf (uid : Nat) : AuthHeader :=
  .bearer { user_id := some uid, sigValid := true, expired := false }

/-- Handler outcome: 200 with a body, 401, or 404. -/
inductive Resp (α : Type) where
  | ok (a : α)
  | unauthorized
  | notFound
deriving DecidableEq, Repr

-- ======================= ORM helpers =======================

/-- Task.objects.get by primary key. -/
def findTask (db : Db) (tid : Nat) : Option Task :=
  db.tasks.find? (fun t => t.id == tid)

/-- get_object_or_404 of Task by id and requesting user. -/
def findTaskOf (db : Db) (uid tid : Nat) : Option Task :=
  db.tasks.find? (fun t => t.id == tid && t.user_id == uid)

/-- get_object_or_404 of PomodoroSession by id and requesting user. -/
def findSessionOf (db : Db) (uid sid : Nat) : Option Session :=
  db.sessions.find? (fun s => s.id == sid && s.user_id == uid)

/-- get_object_or_404 of Category by id and requesting user. -/
def findCategoryOf (db : Db) (uid cid : Nat) : Option Category :=
  db.categories.find? (fun c => c.id == cid && c.user_id == uid)

/-- get_object_or_404 of Tag by id and requesting user. -/
def findTagOf (db : Db) (uid gid : Nat) : Option TagRec :=
  db.tags.find? (fun g => g.id == gid && g.user_id == uid)

/-- User.objects.get by primary key. -/
def findUser (db : Db) (uid : Nat) : Option UserRec :=
  db.users.find? (fun u => u.id == uid)

/-- task.save: writes the row with the task's primary key. -/
def saveTask (db : Db) (t : Task) : Db :=
  { db with tasks := db.tasks.map (fun x => if x.id == t.id then t else x) }

/-- session.save: writes the row with the session's primary key. -/
def saveSession (db : Db) (s : Session) : Db :=
  { db with sessions := db.sessions.map (fun x => if x.id == s.id then s else x) }

/-- session.delete: removes the row. -/
def removeSession (db : Db) (sid : Nat) : Db :=
  { db with sessions := db.sessions.filter (fun s => !(s.id == sid)) }

/-- The completed_pomodoros counter of the task with the given id
(0 when the task is absent). -/
def taskCounter (db : Db) (tid : Nat) : Int :=
  ((findTask db tid).map (fun t => t.completed_pomodoros)).getD 0

-- ======================= response schemas =======================

/-- TagSchema of routers/tasks.py. -/
structure TagOut where
  id : Nat
  name : String
  color_code : String
deriving DecidableEq, Repr

/-- TaskSchema of routers/tasks.py. -/
structure TaskOut where
  id : Nat
  title : String
  description : Option String
  status : String
  priority : String
  due_date : Option Int
  estimated_pomodoros : Nat
  completed_pomodoros : Int
  created_at : DTime
  updated_at : DTime
  category_id : Option Nat
  category_name : Option String
  category_color : Option String
  tags : List TagOut
deriving DecidableEq, Repr

/-- Serialization of a task row as every task handler builds it. -/
def taskToOut (db : Db) (t : Task) : TaskOut :=
  let cat : Option Category := match t.category_id with
    | some cid => db.categories.find? (fun c => c.id == cid)
    | none => none
  { id := t.id
    title := t.title
    description := t.description
    status := t.status
    priority := t.priority
    due_date := t.due_date
    estimated_pomodoros := t.estimated_pomodoros
    completed_pomodoros := t.completed_pomodoros
    created_at := t.created_at
    updated_at := t.updated_at
    category_id := (cat.map (fun c => c.id))
    category_name := (cat.map (fun c => c.name))
    category_color := (cat.map (fun c => c.color_code))
    tags := (t.tag_ids.filterMap (fun gid =>
      (db.tags.find? (fun g => g.id == gid)).map
        (fun g => ({ id := g.id, name := g.name, color_code := g.color_code } : TagOut)))) }

/-- PomodoroSessionSchema of routers/pomodoro.py. -/
structure SessionOut where
  id : Nat
  user_id : Nat
  task_id : Option Nat
  task_title : Option String
  start_time : DTime
  end_time : Option DTime
  duration : Nat
  type : String
  is_completed : Bool
deriving DecidableEq, Repr

/-- Serialization of a session row. -/
def sessionToOut (db : Db) (s : Session) : SessionOut :=
  { id := s.id
    user_id := s.user_id
    task_id := s.task_id
    task_title := (s.task_id.bind (fun tid => (findTask db tid).map (fun t => t.title)))
    start_time := s.start_time
    end_time := s.end_time
    duration := s.duration
    type := s.type
    is_completed := s.is_completed }

/-- UserProfileSchema of routers/auth.py (fields the claims mention). -/
structure UserProfileOut where
  id : Nat
  username : String
  email : String
deriving DecidableEq, Repr

-- ======================= task list ordering =======================

/-- Ascending order on the nullable due_date column; MySQL sorts NULL
first under ORDER BY ASC. -/
def dueLtB : Option Int → Option Int → Bool
  | none, none => false
  | none, some _ => true
  | some _, none => false
  | some x, some y => decide (x < y)

/-- Ascending order on a datetime column. -/
def dtLeB (a b : DTime) : Bool :=
  decide (a.day < b.day) || (decide (a.day = b.day) && decide (a.tod ≤ b.tod))

/-- The ORDER BY clause of list_tasks (and Task.Meta.ordering):
priority descending (string comparison on the CharField), then due date
ascending with NULL first, then creation time ascending. -/
def taskLeB (a b : Task) : Bool :=
  if strLtB b.priority a.priority then true
  else if strLtB a.priority b.priority then false
  else if dueLtB a.due_date b.due_date then true
  else if dueLtB b.due_date a.due_date then false
  else dtLeB a.created_at b.created_at

/-- The task ordering as a relation, for sortedness statements. -/
def taskLe (a b : Task) : Prop := taskLeB a b = true

instance : DecidableRel taskLe := fun a b => decEq (taskLeB a b) true

-- ======================= tasks router =======================

/-- Case-insensitive substring test backing the icontains filter. -/
def strIContains (h n : String) : Bool :=
  ((h.toLower).splitOn (n.toLower)).length > 1

/-- list_tasks of routers/tasks.py: user-scoped query, conjunctive
filters (a filter argument that is Python-falsy is skipped), ordered by
priority descending, due date ascending, creation time ascending. -/
def list_tasks (db : Db) (h : AuthHeader) (statusF priorityF : Option String)
    (categoryIdF : Option Nat) (searchF : Option String) : Resp (List TaskOut) :=
  match get_user_id_from_token h with
  | none => .unauthorized
  | some uid =>
    if uid == 0 then .unauthorized
    else
      let q0 := db.tasks.filter (fun t => t.user_id == uid)
      let q1 := match statusF with
        | some s => if s.isEmpty then q0 else q0.filter (fun t => t.status == s)
        | none => q0
      let q2 := match priorityF with
        | some p => if p.isEmpty then q1 else q1.filter (fun t => t.priority == p)
        | none => q1
      let q3 := match categoryIdF with
        | some c => if c == 0 then q2 else q2.filter (fun t => t.category_id == some c)
        | none => q2
      let q4 := match searchF with
        | some s =>
          if s.isEmpty then q3
          else q3.filter (fun t =>
            strIContains t.title s ||
            ((t.description.map (fun d => strIContains d s)).getD false))
        | none => q3
      .ok ((List.insertionSort taskLe q4).map (taskToOut db))

/-- get_task of routers/tasks.py. -/
def get_task (db : Db) (h : AuthHeader) (tid : Nat) : Resp TaskOut :=
  match get_user_id_from_token h with
  | none => .unauthorized
  | some uid =>
    if uid == 0 then .unauthorized
    else
      match findTaskOf db uid tid with
      | none => .notFound
      | some t => .ok (taskToOut db t)

/-- TaskUpdateSchema of routers/tasks.py: every field optional. -/
structure TaskUpdateData where
  title : Option String := none
  description : Option String := none
  status : Option String := none
  priority : Option String := none
  due_date : Option Int := none
  estimated_pomodoros : Option Nat := none
  completed_pomodoros : Option Nat := none
  category_id : Option Nat := none
  tag_ids : Option (List Nat) := none
deriving DecidableEq, Repr

/-- update_task of routers/tasks.py: partial merge of the supplied
fields onto the loaded row; category_id 0 clears the category, a
nonzero category_id must name a category of the same user (else 404
before any write); a supplied tag_ids list replaces the tag set with
the user's tags among the ids; updated_at refreshes on save. -/
def update_task (db : Db) (h : AuthHeader) (tid : Nat) (d : TaskUpdateData)
    (now : DTime) : Resp TaskOut × Db :=
  match get_user_id_from_token h with
  | none => (.unauthorized, db)
  | some uid =>
    if uid == 0 then (.unauthorized, db)
    else
      match findTaskOf db uid tid with
      | none => (.notFound, db)
      | some t =>
        let t1 := { t with
          title := d.title.getD t.title
          description := match d.description with
            | some x => some x
            | none => t.description
          status := d.status.getD t.status
          priority := d.priority.getD t.priority
          due_date := match d.due_date with
            | some x => some x
            | none => t.due_date
          estimated_pomodoros := d.estimated_pomodoros.getD t.estimated_pomodoros
          completed_pomodoros := match d.completed_pomodoros with
            | some v => (v : Int)
            | none => t.completed_pomodoros }
        let catResult : Option (Option Nat) := match d.category_id with
          | none => some t1.category_id
          | some 0 => some none
          | some cid =>
            match findCategoryOf db uid cid with
            | none => none
            | some c => some (some c.id)
        match catResult with
        | none => (.notFound, db)
        | some newCat =>
          let t2 := { t1 with category_id := newCat }
          let t3 := match d.tag_ids with
            | none => t2
            | some gids =>
              { t2 with tag_ids := gids.filter (fun gid =>
                  db.tags.any (fun g => g.id == gid && g.user_id == uid)) }
          let t4 := { t3 with updated_at := now }
          let db1 := saveTask db t4
          (.ok (taskToOut db1 t4), db1)

/-- delete_task of routers/tasks.py; the database FK action SET_NULL on
PomodoroSession.task nulls the task reference of linked sessions. -/
def delete_task (db : Db) (h : AuthHeader) (tid : Nat) : Resp Bool × Db :=
  match get_user_id_from_token h with
  | none => (.unauthorized, db)
  | some uid =>
    if uid == 0 then (.unauthorized, db)
    else
      match findTaskOf db uid tid with
      | none => (.notFound, db)
      | some _ =>
        (.ok true,
         { db with
            tasks := db.tasks.filter (fun t => !(t.id == tid))
            sessions := db.sessions.map (fun s =>
              if s.task_id == some tid then { s with task_id := none } else s) })

/-- list_categories of routers/tasks.py. -/
def list_categories (db : Db) (h : AuthHeader) : Resp (List Category) :=
  match get_user_id_from_token h with
  | none => .unauthorized
  | some uid =>
    if uid == 0 then .unauthorized
    else .ok (db.categories.filter (fun c => c.user_id == uid))

/-- update_category of routers/tasks.py. -/
def update_category (db : Db) (h : AuthHeader) (cid : Nat)
    (name color : String) : Resp Category × Db :=
  match get_user_id_from_token h with
  | none => (.unauthorized, db)
  | some uid =>
    if uid == 0 then (.unauthorized, db)
    else
      match findCategoryOf db uid cid with
      | none => (.notFound, db)
      | some c =>
        let c1 := { c with name := name, color_code := color }
        (.ok c1,
         { db with categories := db.categories.map (fun x => if x.id == cid then c1 else x) })

/-- delete_category of routers/tasks.py: nulls the category reference
on all its tasks, then deletes the row. -/
def delete_category (db : Db) (h : AuthHeader) (cid : Nat) : Resp Bool × Db :=
  match get_user_id_from_token h with
  | none => (.unauthorized, db)
  | some uid =>
    if uid == 0 then (.unauthorized, db)
    else
      match findCategoryOf db uid cid with
      | none => (.notFound, db)
      | some _ =>
        (.ok true,
         { db with
            tasks := db.tasks.map (fun t =>
              if t.category_id == some cid then { t with category_id := none } else t)
            categories := db.categories.filter (fun c => !(c.id == cid)) })

/-- list_tags of routers/tasks.py. -/
def list_tags (db : Db) (h : AuthHeader) : Resp (List TagRec) :=
  match get_user_id_from_token h with
  | none => .unauthorized
  | some uid =>
    if uid == 0 then .unauthorized
    else .ok (db.tags.filter (fun g => g.user_id == uid))

/-- update_tag of routers/tasks.py. -/
def update_tag (db : Db) (h : AuthHeader) (gid : Nat)
    (name color : String) : Resp TagRec × Db :=
  match get_user_id_from_token h with
  | none => (.unauthorized, db)
  | some uid =>
    if uid == 0 then (.unauthorized, db)
    else
      match findTagOf db uid gid with
      | none => (.notFound, db)
      | some g =>
        let g1 := { g with name := name, color_code := color }
        (.ok g1,
         { db with tags := db.tags.map (fun x => if x.id == gid then g1 else x) })

/-- delete_tag of routers/tasks.py: detaches the tag from all tasks and
deletes it. -/
def delete_tag (db : Db) (h : AuthHeader) (gid : Nat) : Resp Bool × Db :=
  match get_user_id_from_token h with
  | none => (.unauthorized, db)
  | some uid =>
    if uid == 0 then (.unauthorized, db)
    else
      match findTagOf db uid gid with
      | none => (.notFound, db)
      | some _ =>
        (.ok true,
         { db with
            tasks := db.tasks.map (fun t =>
              { t with tag_ids := t.tag_ids.filter (fun x => !(x == gid)) })
            tags := db.tags.filter (fun g => !(g.id == gid)) })

-- ======================= pomodoro router =======================

/-- complete_session of routers/pomodoro.py: loads the user's session,
normalizes a timezone-naive end time, stores end time and completion
flag, and, when the saved session is completed, of work type and linked
to a task, increments that task's completed_pomodoros by 1 and saves
the task (refreshing its updated_at). -/
def complete_session (db : Db) (h : AuthHeader) (sid : Nat)
    (end_time : DTime) (is_completed : Bool) (now : DTime) : Resp SessionOut × Db :=
  match get_user_id_from_token h with
  | none => (.unauthorized, db)
  | some uid =>
    if uid == 0 then (.unauthorized, db)
    else
      match findSessionOf db uid sid with
      | none => (.notFound, db)
      | some s =>
        let e := if end_time.naive then make_aware end_time else end_time
        let s1 := { s with end_time := some e, is_completed := is_completed }
        let db1 := saveSession db s1
        let db2 :=
          if s1.is_completed && s1.type == "work" then
            match s1.task_id with
            | some tid =>
              match findTask db1 tid with
              | some t =>
                saveTask db1 { t with
                  completed_pomodoros := t.completed_pomodoros + 1
                  updated_at := now }
              | none => db1
            | none => db1
          else db1
        (.ok (sessionToOut db2 s1), db2)

/-- delete_session of routers/pomodoro.py: when the session being
removed is a completed work session linked to a task, decrements that
task's completed_pomodoros, floored at 0, then deletes the session. -/
def delete_session (db : Db) (h : AuthHeader) (sid : Nat) (now : DTime) :
    Resp Bool × Db :=
  match get_user_id_from_token h with
  | none => (.unauthorized, db)
  | some uid =>
    if uid == 0 then (.unauthorized, db)
    else
      match findSessionOf db uid sid with
      | none => (.notFound, db)
      | some s =>
        let db1 :=
          if s.is_completed && s.type == "work" then
            match s.task_id with
            | some tid =>
              match findTask db tid with
              | some t =>
                if t.completed_pomodoros > 0 then
                  saveTask db { t with
                    completed_pomodoros := t.completed_pomodoros - 1
                    updated_at := now }
                else db
              | none => db
            | none => db
          else db
        (.ok true, removeSession db1 sid)

/-- Descending order on session start times (ORDER BY -start_time). -/
def sessDescLe (a b : Session) : Prop := dtLeB b.start_time a.start_time = true

instance : DecidableRel sessDescLe := fun a b => decEq (dtLeB b.start_time a.start_time) true

/-- get_history of routers/pomodoro.py: the user's sessions started
within the trailing window, optionally restricted to one task (a
Python-falsy task_id is skipped), newest first. -/
def get_history (db : Db) (h : AuthHeader) (days : Nat)
    (taskIdF : Option Nat) (nowT : DTime) : Resp (List SessionOut) :=
  match get_user_id_from_token h with
  | none => .unauthorized
  | some uid =>
    if uid == 0 then .unauthorized
    else
      let startDay : Int := nowT.day - (days : Int)
      let q0 := db.sessions.filter (fun s =>
        s.user_id == uid &&
        (decide (startDay < s.start_time.day) ||
         (decide (s.start_time.day = startDay) && decide (nowT.tod ≤ s.start_time.tod))))
      let q1 := match taskIdF with
        | some tid => if tid == 0 then q0 else q0.filter (fun s => s.task_id == some tid)
        | none => q0
      .ok ((List.insertionSort sessDescLe q1).map (sessionToOut db))

-- ======================= auth router =======================

/-- get_user of routers/auth.py: when the user_id query parameter is
absent the id is taken from the token; with no id the request is
unauthenticated; otherwise the profile of the user with that id is
returned when it exists. -/
def get_user (db : Db) (userIdParam : Option Nat) (h : AuthHeader) :
    Resp UserProfileOut :=
  let uid? := match userIdParam with
    | some u => some u
    | none => get_user_id_from_token h
  match uid? with
  | none => .unauthorized
  | some uid =>
    match findUser db uid with
    | some u => .ok { id := u.id, username := u.username, email := u.email }
    | none => .notFound

-- ======================= analytics router =======================

/-- One point of a dashboard time series (the date string stands for
its day index). -/
structure TimeSeriesPoint where
  date : Int
  value : Nat
deriving DecidableEq, Repr

/-- ProductivityStats of routers/analytics.py; focus_hours,
completion_rate and daily_average carry the rounded float as a scaled
integer (tenths, hundredths, tenths). -/
structure ProductivityStats where
  total_pomodoros : Nat
  completed_tasks : Nat
  focus_hours_tenths : Int
  completion_rate_hundredths : Int
  daily_average_tenths : Int
  streak : Nat
deriving DecidableEq, Repr

/-- DailyStats of routers/analytics.py. -/
structure DailyStat where
  date : Int
  pomodoros : Nat
  tasks_completed : Nat
  focus_minutes : Nat
deriving DecidableEq, Repr

/-- AnalyticsResponse of routers/analytics.py (the parts the claims
concern; the category and priority distributions are not modelled). -/
structure AnalyticsOut where
  pomodoro_time_series : List TimeSeriesPoint
  task_completion_time_series : List TimeSeriesPoint
  productivity_stats : ProductivityStats
  daily_stats : List DailyStat
deriving DecidableEq, Repr

/-- Existence query of the streak loop: does the user have a completed
work session started on the given day (not restricted to the window). -/
def hasWorkOn (db : Db) (uid : Nat) (d : Int) : Bool :=
  db.sessions.any (fun s =>
    s.user_id == uid && s.start_time.day == d && s.type == "work" && s.is_completed)

/-- The streak while-loop of get_analytics: starting at the window's
end date and walking backward one day at a time while the date is still
inside the window (fuel is the window length), count consecutive days
with a completed work session, stopping at the first day without one. -/
def streakLoop (hasW : Int → Bool) : Nat → Int → Nat
  | 0, _ => 0
  | fuel + 1, d => if hasW d then streakLoop hasW fuel (d - 1) + 1 else 0

/-- get_analytics of routers/analytics.py (dashboard): aggregates over
the window from end_date minus days through end_date inclusive, where
end_date is the current date. -/
def get_analytics (db : Db) (userId : Nat) (today : Int) (days : Nat) : AnalyticsOut :=
  let endDate : Int := today
  let startDate : Int := today - (days : Int)
  let psessions := db.sessions.filter (fun s =>
    s.user_id == userId && decide (startDate ≤ s.start_time.day) &&
    decide (s.start_time.day ≤ endDate) && s.is_completed)
  let tasks := db.tasks.filter (fun t =>
    t.user_id == userId && decide (startDate ≤ t.created_at.day) &&
    decide (t.created_at.day ≤ endDate))
  let total_pomodoros := (psessions.filter (fun s => s.type == "work")).length
  let completed_tasks := (tasks.filter (fun t => t.status == "completed")).length
  let totalSeconds : Int :=
    (((psessions.filter (fun s => s.type == "work")).map (fun s => s.duration)).sum : Int)
  let focus_hours_tenths := roundHalfUpDiv (10 * totalSeconds) 3600
  let total_tasks := tasks.length
  let completion_rate_hundredths :=
    if total_tasks > 0 then roundHalfUpDiv (100 * (completed_tasks : Int)) (total_tasks : Int)
    else 0
  let daily_average_tenths := roundHalfUpDiv (10 * (total_pomodoros : Int)) (days : Int)
  let streak := streakLoop (hasWorkOn db userId) (days + 1) endDate
  let pomodoro_time_series := (List.range (days + 1)).map (fun (i : Nat) =>
    let d := startDate + (i : Int)
    ({ date := d
       value := (psessions.filter (fun s => s.type == "work" && s.start_time.day == d)).length } :
      TimeSeriesPoint))
  let task_completion_time_series := (List.range (days + 1)).map (fun (i : Nat) =>
    let d := startDate + (i : Int)
    ({ date := d
       value := (tasks.filter (fun t =>
         t.status == "completed" && t.updated_at.day == d)).length } : TimeSeriesPoint))
  let daily_stats := ((List.range (days + 1)).map (fun (i : Nat) =>
    let d := startDate + (i : Int)
    let daily := psessions.filter (fun s => s.type == "work" && s.start_time.day == d)
    ({ date := d
       pomodoros := daily.length
       tasks_completed := (tasks.filter (fun t =>
         t.status == "completed" && t.updated_at.day == d)).length
       focus_minutes := (daily.map (fun s => s.duration)).sum / 60 } : DailyStat))).filter
    (fun ds => ds.pomodoros > 0 || ds.tasks_completed > 0)
  { pomodoro_time_series := pomodoro_time_series
    task_completion_time_series := task_completion_time_series
    productivity_stats :=
      { total_pomodoros := total_pomodoros
        completed_tasks := completed_tasks
        focus_hours_tenths := focus_hours_tenths
        completion_rate_hundredths := completion_rate_hundredths
        daily_average_tenths := daily_average_tenths
        streak := streak }
    daily_stats := daily_stats }

/-- get_analytics_by_date_range of routers/analytics.py: computes the
day count of the requested range and delegates to get_analytics, which
aggregates over the trailing window ending at the current date. -/
def get_analytics_by_date_range (db : Db) (userId : Nat) (today : Int)
    (startD endD : Int) : AnalyticsOut :=
  let days : Nat := (endD - startD + 1).toNat
  get_analytics db userId today days

/-- Modelled from the spec: the analytics date-range operation is
specified to compute every aggregate over exactly the calendar window
from start_date to end_date inclusive; the aggregation body mirrors
get_analytics with that window substituted (window length as the
daily-average denominator and as the streak bound). -/
def date_range_analytics_spec (db : Db) (userId : Nat) (startD endD : Int) : AnalyticsOut :=
  let len : Nat := (endD - startD + 1).toNat
  let psessions := db.sessions.filter (fun s =>
    s.user_id == userId && decide (startD ≤ s.start_time.day) &&
    decide (s.start_time.day ≤ endD) && s.is_completed)
  let tasks := db.tasks.filter (fun t =>
    t.user_id == userId && decide (startD ≤ t.created_at.day) &&
    decide (t.created_at.day ≤ endD))
  let total_pomodoros := (psessions.filter (fun s => s.type == "work")).length
  let completed_tasks := (tasks.filter (fun t => t.status == "completed")).length
  let totalSeconds : Int :=
    (((psessions.filter (fun s => s.type == "work")).map (fun s => s.duration)).sum : Int)
  let focus_hours_tenths := roundHalfUpDiv (10 * totalSeconds) 3600
  let total_tasks := tasks.length
  let completion_rate_hundredths :=
    if total_tasks > 0 then roundHalfUpDiv (100 * (completed_tasks : Int)) (total_tasks : Int)
    else 0
  let daily_average_tenths := roundHalfUpDiv (10 * (total_pomodoros : Int)) (len : Int)
  let streak := streakLoop (hasWorkOn db userId) len endD
  let pomodoro_time_series := (List.range len).map (fun (i : Nat) =>
    let d := startD + (i : Int)
    ({ date := d
       value := (psessions.filter (fun s => s.type == "work" && s.start_time.day == d)).length } :
      TimeSeriesPoint))
  let task_completion_time_series := (List.range len).map (fun (i : Nat) =>
    let d := startD + (i : Int)
    ({ date := d
       value := (tasks.filter (fun t =>
         t.status == "completed" && t.updated_at.day == d)).length } : TimeSeriesPoint))
  let daily_stats := ((List.range len).map (fun (i : Nat) =>
    let d := startD + (i : Int)
    let daily := psessions.filter (fun s => s.type == "work" && s.start_time.day == d)
    ({ date := d
       pomodoros := daily.length
       tasks_completed := (tasks.filter (fun t =>
         t.status == "completed" && t.updated_at.day == d)).length
       focus_minutes := (daily.map (fun s => s.duration)).sum / 60 } : DailyStat))).filter
    (fun ds => ds.pomodoros > 0 || ds.tasks_completed > 0)
  { pomodoro_time_series := pomodoro_time_series
    task_completion_time_series := task_completion_time_series
    productivity_stats :=
      { total_pomodoros := total_pomodoros
        completed_tasks := completed_tasks
        focus_hours_tenths := focus_hours_tenths
        completion_rate_hundredths := completion_rate_hundredths
        daily_average_tenths := daily_average_tenths
        streak := streak }
    daily_stats := daily_stats }

/-- The dashboard route as mounted in api.py: the analytics router sits
behind AuthBearer, so a request whose token fails verification is
answered 401 and the handler never runs. -/
def dashboard_route (db : Db) (h : AuthHeader) (today : Int) (days : Nat) :
    Resp AnalyticsOut :=
  match authBearer h with
  | none => .unauthorized
  | some uid =>
    if uid == 0 then .unauthorized
    else .ok (get_analytics db uid today days)

-- ======================= concrete databases =======================

/-- A user with no tasks and no sessions. -/
def c3EmptyDb : Db :=
  { users := [{ id := 1, username := "u", email := "u@example.com" }]
    tasks := [], categories := [], tags := [], sessions := [] }

/-- A high-priority task created before a medium-priority one. -/
def c4TaskHigh : Task :=
  { id := 1, user_id := 1, title := "hi", description := none, status := "pending"
    priority := "high", due_date := none, estimated_pomodoros := 1
    completed_pomodoros := 0, created_at := { day := 0, tod := 0, naive := false }
    updated_at := { day := 0, tod := 0, naive := false }, category_id := none, tag_ids := [] }

/-- A medium-priority task of the same user. -/
def c4TaskMed : Task :=
  { id := 2, user_id := 1, title := "med", description := none, status := "pending"
    priority := "medium", due_date := none, estimated_pomodoros := 1
    completed_pomodoros := 0, created_at := { day := 0, tod := 1, naive := false }
    updated_at := { day := 0, tod := 1, naive := false }, category_id := none, tag_ids := [] }

/-- Database holding the two tasks above for user 1. -/
def c4Db : Db :=
  { users := [{ id := 1, username := "u", email := "u@example.com" }]
    tasks := [c4TaskHigh, c4TaskMed], categories := [], tags := [], sessions := [] }

/-- A database with one registered user and nothing else. -/
def c7Db : Db :=
  { users := [{ id := 1, username := "alice", email := "alice@example.com" }]
    tasks := [], categories := [], tags := [], sessions := [] }

/-- One completed work session on day 1 (far before day 100). -/
def c8Session : Session :=
  { id := 1, user_id := 1, task_id := none
    start_time := { day := 1, tod := 0, naive := false }
    end_time := some { day := 1, tod := 1500, naive := false }
    duration := 1500, type := "work", is_completed := true }

/-- Database for the date-range divergence: the only activity is on day 1. -/
def c8Db : Db :=
  { users := [{ id := 1, username := "u", email := "u@example.com" }]
    tasks := [], categories := [], tags := [], sessions := [c8Session] }

-- ======================= single-session operation sequences =======================

/-- An operation a client may issue against one existing session:
PUT complete with a completion flag, or DELETE. -/
inductive C1Op where
  | complete (b : Bool)
  | del
deriving DecidableEq, Repr

/-- Fixed end-time payload used by the operation sequences. -/
def c1E : DTime := { day := 0, tod := 500, naive := false }

/-- Fixed server clock used by the operation sequences. -/
def c1Now : DTime := { day := 0, tod := 0, naive := false }

/-- The single task of the one-session scenario, with counter c. -/
def c1Task (c : Int) (u : DTime) : Task :=
  { id := 1, user_id := 1, title := "t", description := none, status := "pending"
    priority := "medium", due_date := none, estimated_pomodoros := 1
    completed_pomodoros := c, created_at := { day := 0, tod := 0, naive := false }
    updated_at := u, category_id := none, tag_ids := [] }

/-- The single work session of the scenario, linked to task 1. -/
def c1Session (b : Bool) (e : Option DTime) : Session :=
  { id := 1, user_id := 1, task_id := some 1
    start_time := { day := 0, tod := 0, naive := false }
    end_time := e, duration := 1500, type := "work", is_completed := b }

/-- Scenario state while the session still exists. -/
def c1StateDb (c : Int) (u : DTime) (b : Bool) (e : Option DTime) : Db :=
  { users := [{ id := 1, username := "u", email := "u@example.com" }]
    tasks := [c1Task c u], categories := [], tags := []
    sessions := [c1Session b e] }

/-- Scenario state after the session was deleted. -/
def c1DeadDb (c : Int) (u : DTime) : Db :=
  { users := [{ id := 1, username := "u", email := "u@example.com" }]
    tasks := [c1Task c u], categories := [], tags := [], sessions := [] }

/-- Initial scenario state: counter c0, session open and incomplete. -/
def c1Db (c0 : Nat) : Db :=
  c1StateDb (c0 : Int) { day := 0, tod := 0, naive := false } false none

/-- One client operation executed through the embedded handlers. -/
def c1Step (db : Db) : C1Op → Db
  | .complete b => (complete_session db (authOf 1) 1 c1E b c1Now).2
  | .del => (delete_session db (authOf 1) 1 c1Now).2

/-- A whole sequence of client operations. -/
def c1Run : List C1Op → Db → Db
  | [], db => db
  | op :: ops, db => c1Run ops (c1Step db op)

/-- Net completions of a sequence as the spec counts them: each
complete call with flag true is one completion; a deletion while the
session stands completed is a matching deletion; operations after the
deletion address a gone session and count nothing. -/
def netCompletions : List C1Op → Bool → Int
  | [], _ => 0
  | .del :: _, b => if b then -1 else 0
  | .complete c :: ops, _ => (if c then 1 else 0) + netCompletions ops c

-- ======================= generic list lemmas =======================

lemma key_inj_of_nodup {α : Type} (key : α → Nat) :
    ∀ (l : List α), (l.map key).Nodup →
      ∀ {a b : α}, a ∈ l → b ∈ l → key a = key b → a = b := by
  intro l
  induction l with
  | nil => intro _ a b ha; cases ha
  | cons x xs ih =>
    intro hnd a b ha hb hk
    rw [List.map_cons, List.nodup_cons] at hnd
    rcases List.mem_cons.1 ha with rfl | ha' <;> rcases List.mem_cons.1 hb with rfl | hb'
    · rfl
    · exact absurd (hk ▸ List.mem_map_of_mem key hb') hnd.1
    · exact absurd (hk ▸ List.mem_map_of_mem key ha') hnd.1
    · exact ih hnd.2 ha' hb' hk

lemma find?_eq_of_mem_nodup {α : Type} (key : α → Nat) (l : List α) (a : α) (k : Nat)
    (hnd : (l.map key).Nodup) (ha : a ∈ l) (hk : key a = k) :
    l.find? (fun x => key x == k) = some a := by
  induction l with
  | nil => cases ha
  | cons x xs ih =>
    rw [List.map_cons, List.nodup_cons] at hnd
    rcases List.mem_cons.1 ha with rfl | ha'
    · exact List.find?_cons_of_pos _ (by simp [hk])
    · have hne : key x ≠ k := fun hh =>
        hnd.1 ((hh.trans hk.symm) ▸ List.mem_map_of_mem key ha')
      rw [List.find?_cons_of_neg _ (by simp [hne])]
      exact ih hnd.2 ha'

lemma find?_replace_eq {α : Type} (key : α → Nat) (p : α → Bool) (l : List α) (a b : α)
    (hnd : (l.map key).Nodup)
    (hfind : l.find? p = some a)
    (hkey : key b = key a)
    (hpb : p b = true) :
    (l.map (fun x => if key x == key b then b else x)).find? p = some b := by
  induction l with
  | nil => simp at hfind
  | cons x xs ih =>
    rw [List.map_cons, List.nodup_cons] at hnd
    by_cases hx : p x = true
    · rw [List.find?_cons_of_pos _ hx] at hfind
      have hax : x = a := by injection hfind
      rw [List.map_cons]
      have hcond : (key x == key b) = true := by simp [hkey, hax]
      simp only [hcond, if_pos]
      exact List.find?_cons_of_pos _ hpb
    · rw [List.find?_cons_of_neg _ hx] at hfind
      have haxs : a ∈ xs := List.mem_of_find?_eq_some hfind
      have hne : key x ≠ key b := by
        rw [hkey]; exact fun hh => hnd.1 (hh ▸ List.mem_map_of_mem key haxs)
      rw [List.map_cons]
      have hcond : (key x == key b) = false := by simp [hne]
      simp only [hcond, Bool.false_eq_true, if_false]
      rw [List.find?_cons_of_neg _ hx]
      exact ih hnd.2 hfind

lemma map_key_replace {α : Type} (key : α → Nat) (b : α) (l : List α) :
    (l.map (fun x => if key x == key b then b else x)).map key = l.map key := by
  induction l with
  | nil => rfl
  | cons x xs ih =>
    simp only [List.map_cons, ih]
    by_cases h : key x = key b <;> simp [h]

lemma find?_owner_none {α : Type} (key owner : α → Nat) (l : List α) (a : α) (B : Nat)
    (hnd : (l.map key).Nodup) (ha : a ∈ l) (hB : ¬ owner a = B) :
    l.find? (fun x => key x == key a && owner x == B) = none := by
  rw [List.find?_eq_none]
  intro x hx
  by_cases hk : key x = key a
  · have hxa : x = a := key_inj_of_nodup key l hnd hx ha hk
    subst hxa
    simp [hB]
  · simp [hk]

-- ======================= theorems =======================

lemma c1_counter_state (c : Int) (u : DTime) (b : Bool) (e : Option DTime) :
    taskCounter (c1StateDb c u b e) 1 = c := rfl

lemma c1_counter_dead (c : Int) (u : DTime) :
    taskCounter (c1DeadDb c u) 1 = c := rfl

lemma c1_step_complete_true (c : Int) (u : DTime) (b : Bool) (e : Option DTime) :
    c1Step (c1StateDb c u b e) (.complete true) = c1StateDb (c + 1) c1Now true (some c1E) := rfl

lemma c1_step_complete_false (c : Int) (u : DTime) (b : Bool) (e : Option DTime) :
    c1Step (c1StateDb c u b e) (.complete false) = c1StateDb c u false (some c1E) := rfl

lemma c1_step_del_false (c : Int) (u : DTime) (e : Option DTime) :
    c1Step (c1StateDb c u false e) .del = c1DeadDb c u := rfl

lemma c1_step_del_true (c : Int) (u : DTime) (e : Option DTime) (hc : 0 < c) :
    c1Step (c1StateDb c u true e) .del = c1DeadDb (c - 1) c1Now := by
  simp only [c1Step, delete_session, authOf, get_user_id_from_token, jwtDecode,
    c1StateDb, findSessionOf, c1Session, findTask, c1Task, saveTask, removeSession,
    c1DeadDb]
  simp [hc, c1Now]

lemma c1_step_dead (c : Int) (u : DTime) (op : C1Op) :
    c1Step (c1DeadDb c u) op = c1DeadDb c u := by
  cases op with
  | complete b => rfl
  | del => rfl

lemma c1_run_dead (c : Int) (u : DTime) :
    ∀ ops : List C1Op, c1Run ops (c1DeadDb c u) = c1DeadDb c u
  | [] => rfl
  | op :: ops => by rw [c1Run, c1_step_dead]; exact c1_run_dead c u ops

lemma c1_run_spec :
    ∀ (ops : List C1Op) (c : Int) (u : DTime) (b : Bool) (e : Option DTime),
      0 ≤ c → (b = true → 1 ≤ c) →
      taskCounter (c1Run ops (c1StateDb c u b e)) 1 = c + netCompletions ops b ∧
      0 ≤ taskCounter (c1Run ops (c1StateDb c u b e)) 1
  | [], c, u, b, e, hc, _ => by
    simp [c1Run, c1_counter_state, netCompletions, hc]
  | .complete true :: ops, c, u, b, e, hc, _ => by
    rw [c1Run, c1_step_complete_true]
    have h := c1_run_spec ops (c + 1) c1Now true (some c1E) (by omega) (fun _ => by omega)
    refine ⟨?_, h.2⟩
    rw [h.1]
    simp [netCompletions]
    omega
  | .complete false :: ops, c, u, b, e, hc, _ => by
    rw [c1Run, c1_step_complete_false]
    have h := c1_run_spec ops c u false (some c1E) hc (fun hh => by cases hh)
    refine ⟨?_, h.2⟩
    rw [h.1]
    simp [netCompletions]
  | .del :: ops, c, u, b, e, hc, hb => by
    cases b with
    | true =>
      have hc1 : 1 ≤ c := hb rfl
      rw [c1Run, c1_step_del_true c u e (by omega), c1_run_dead, c1_counter_dead]
      simp [netCompletions]
      omega
    | false =>
      rw [c1Run, c1_step_del_false, c1_run_dead, c1_counter_dead]
      simp [netCompletions, hc]

/-- C1: for any sequence of complete and delete operations issued
through the embedded handlers against the single work session linked to
task 1, the task's completed_pomodoros counter ends equal to its
initial value plus the net completions of the sequence (completions
minus a matching deletion of the session while completed), and it never
goes negative. -/
theorem c1_counter_consistency (c0 : Nat) (ops : List C1Op) :
    taskCounter (c1Run ops (c1Db c0)) 1 = (c0 : Int) + netCompletions ops false ∧
    0 ≤ taskCounter (c1Run ops (c1Db c0)) 1 := by
  have h := c1_run_spec ops (c0 : Int) { day := 0, tod := 0, naive := false } false none
    (by positivity) (fun hh => by cases hh)
  simpa [c1Db] using h

lemma beq_zero_false_of_ne {uid : Nat} (huid : uid ≠ 0) : (uid == 0) = false := by
  simpa using huid

lemma map_task_ids_replace (b : Task) (k : Nat) (hb : b.id = k) (l : List Task) :
    (l.map (fun x => if x.id == k then b else x)).map (fun x => x.id) =
      l.map (fun x => x.id) := by
  induction l with
  | nil => rfl
  | cons x xs ih =>
    simp only [List.map_cons, ih]
    by_cases h : x.id = k <;> simp [h, hb]

lemma map_session_ids_replace (b : Session) (k : Nat) (hb : b.id = k) (l : List Session) :
    (l.map (fun x => if x.id == k then b else x)).map (fun x => x.id) =
      l.map (fun x => x.id) := by
  induction l with
  | nil => rfl
  | cons x xs ih =>
    simp only [List.map_cons, ih]
    by_cases h : x.id = k <;> simp [h, hb]

lemma complete_true_step (db : Db) (uid sid tid : Nat) (s : Session) (t : Task)
    (e now : DTime) (huid : uid ≠ 0)
    (hndT : (db.tasks.map (fun x => x.id)).Nodup)
    (hndS : (db.sessions.map (fun x => x.id)).Nodup)
    (hs : findSessionOf db uid sid = some s)
    (hw : s.type = "work") (hst : s.task_id = some tid)
    (ht : findTask db tid = some t) :
    (complete_session db (authOf uid) sid e true now).2 =
      saveTask (saveSession db
          { s with end_time := some (if e.naive then make_aware e else e),
                   is_completed := true })
        { t with completed_pomodoros := t.completed_pomodoros + 1, updated_at := now } ∧
    findTask (complete_session db (authOf uid) sid e true now).2 tid =
      some { t with completed_pomodoros := t.completed_pomodoros + 1, updated_at := now } ∧
    findSessionOf (complete_session db (authOf uid) sid e true now).2 uid sid =
      some { s with end_time := some (if e.naive then make_aware e else e),
                    is_completed := true } ∧
    ((complete_session db (authOf uid) sid e true now).2.tasks.map (fun x => x.id)).Nodup ∧
    ((complete_session db (authOf uid) sid e true now).2.sessions.map (fun x => x.id)).Nodup := by
  have hbeq := beq_zero_false_of_ne huid
  have ht' : db.tasks.find? (fun x => x.id == tid) = some t := ht
  have hs' : db.sessions.find? (fun x => x.id == sid && x.user_id == uid) = some s := hs
  have hpt : t.id = tid := by simpa using List.find?_some ht'
  have hps : s.id = sid ∧ s.user_id = uid := by simpa using List.find?_some hs'
  have hstep : (complete_session db (authOf uid) sid e true now).2 =
      saveTask (saveSession db
          { s with end_time := some (if e.naive then make_aware e else e),
                   is_completed := true })
        { t with completed_pomodoros := t.completed_pomodoros + 1, updated_at := now } := by
    simp only [complete_session, get_user_id_from_token, authOf, jwtDecode,
      Bool.not_false, Bool.and_self, if_true, hbeq, Bool.false_eq_true, if_false, hs]
    simp [hw, hst, findTask, saveSession, ht']
  refine ⟨hstep, ?_, ?_, ?_, ?_⟩
  · rw [hstep]
    have h := find?_replace_eq (fun x : Task => x.id) (fun x : Task => x.id == tid)
      db.tasks t
      { t with completed_pomodoros := t.completed_pomodoros + 1, updated_at := now }
      hndT ht' rfl (by simp [hpt])
    simpa [findTask, saveTask, saveSession] using h
  · rw [hstep]
    have h := find?_replace_eq (fun x : Session => x.id)
      (fun x : Session => x.id == sid && x.user_id == uid)
      db.sessions s
      { s with end_time := some (if e.naive then make_aware e else e), is_completed := true }
      hndS hs' rfl (by simp [hps.1, hps.2])
    simpa [findSessionOf, saveTask, saveSession] using h
  · rw [hstep]
    simp only [saveTask, saveSession]
    have hm := map_task_ids_replace
      ({ t with completed_pomodoros := t.completed_pomodoros + 1, updated_at := now } : Task)
      t.id rfl db.tasks
    rw [hm]
    exact hndT
  · rw [hstep]
    simp only [saveTask, saveSession]
    have hm := map_session_ids_replace
      ({ s with end_time := some (if e.naive then make_aware e else e),
                is_completed := true } : Session)
      s.id rfl db.sessions
    rw [hm]
    exact hndS

/-- C2: every complete call with is_completed true on a work session
linked to an existing task increments that task's completed_pomodoros
by exactly 1, and a second call on the now-already-completed session
increments it again: the side effect is not idempotent. -/
theorem c2_complete_increments_every_call
    (db : Db) (uid sid tid : Nat) (s : Session) (t : Task) (e now : DTime)
    (huid : uid ≠ 0)
    (hndT : (db.tasks.map (fun x => x.id)).Nodup)
    (hndS : (db.sessions.map (fun x => x.id)).Nodup)
    (hs : findSessionOf db uid sid = some s)
    (hw : s.type = "work")
    (hst : s.task_id = some tid)
    (ht : findTask db tid = some t) :
    taskCounter (complete_session db (authOf uid) sid e true now).2 tid =
      taskCounter db tid + 1 ∧
    taskCounter (complete_session (complete_session db (authOf uid) sid e true now).2
        (authOf uid) sid e true now).2 tid =
      taskCounter db tid + 2 := by
  obtain ⟨hstep1, hft1, hfs1, hndT1, hndS1⟩ :=
    complete_true_step db uid sid tid s t e now huid hndT hndS hs hw hst ht
  obtain ⟨hstep2, hft2, hfs2, hndT2, hndS2⟩ :=
    complete_true_step (complete_session db (authOf uid) sid e true now).2 uid sid tid
      { s with end_time := some (if e.naive then make_aware e else e), is_completed := true }
      { t with completed_pomodoros := t.completed_pomodoros + 1, updated_at := now }
      e now huid hndT1 hndS1 hfs1 hw hst hft1
  have e1 : taskCounter (complete_session db (authOf uid) sid e true now).2 tid =
      t.completed_pomodoros + 1 := by simp [taskCounter, hft1]
  have e2 : taskCounter (complete_session (complete_session db (authOf uid) sid e true now).2
      (authOf uid) sid e true now).2 tid = t.completed_pomodoros + 1 + 1 := by
    simp [taskCounter, hft2]
  have e0 : taskCounter db tid = t.completed_pomodoros := by simp [taskCounter, ht]
  rw [e0, e1, e2]
  omega

/-- C2 witness: in the one-task one-session database the first complete
call moves the counter from 0 to 1 and the second from 1 to 2. -/
theorem c2_complete_increments_every_call_witness :
    taskCounter (complete_session (c1Db 0) (authOf 1) 1 c1E true c1Now).2 1 =
      taskCounter (c1Db 0) 1 + 1 ∧
    taskCounter (complete_session (complete_session (c1Db 0) (authOf 1) 1 c1E true c1Now).2
        (authOf 1) 1 c1E true c1Now).2 1 =
      taskCounter (c1Db 0) 1 + 2 :=
  c2_complete_increments_every_call (c1Db 0) 1 1 1 (c1Session false none)
    (c1Task 0 { day := 0, tod := 0, naive := false }) c1E c1Now
    (by decide) (by decide) (by decide) (by decide) (by decide) (by decide) (by decide)

/-- C9: supplying completed_pomodoros to the task-update operation
writes the supplied value verbatim to the task, independent of the
session history (the handler never reads or changes the sessions), and
answers 200 with the written value. -/
theorem c9_update_task_writes_counter
    (db : Db) (uid tid v : Nat) (t : Task) (now : DTime)
    (huid : uid ≠ 0)
    (hndT : (db.tasks.map (fun x => x.id)).Nodup)
    (ht : findTaskOf db uid tid = some t) :
    taskCounter (update_task db (authOf uid) tid
        { completed_pomodoros := some v } now).2 tid = (v : Int) ∧
    (update_task db (authOf uid) tid
        { completed_pomodoros := some v } now).2.sessions = db.sessions ∧
    (∃ out, (update_task db (authOf uid) tid
        { completed_pomodoros := some v } now).1 = Resp.ok out ∧
      out.completed_pomodoros = (v : Int)) := by
  have hbeq := beq_zero_false_of_ne huid
  have ht' : db.tasks.find? (fun x => x.id == tid && x.user_id == uid) = some t := ht
  have hpt : t.id = tid ∧ t.user_id = uid := by simpa using List.find?_some ht'
  have hmem : t ∈ db.tasks := List.mem_of_find?_eq_some ht'
  have htid : db.tasks.find? (fun x => x.id == tid) = some t :=
    find?_eq_of_mem_nodup (fun x : Task => x.id) db.tasks t tid hndT hmem hpt.1
  have hstep : update_task db (authOf uid) tid { completed_pomodoros := some v } now =
      (Resp.ok (taskToOut
          (saveTask db { t with completed_pomodoros := (v : Int), updated_at := now })
          { t with completed_pomodoros := (v : Int), updated_at := now }),
        saveTask db { t with completed_pomodoros := (v : Int), updated_at := now }) := by
    simp only [update_task, get_user_id_from_token, authOf, jwtDecode,
      Bool.not_false, Bool.and_self, if_true, hbeq, Bool.false_eq_true, if_false, ht]
    simp
  have hfind : findTask
      (saveTask db { t with completed_pomodoros := (v : Int), updated_at := now }) tid =
      some { t with completed_pomodoros := (v : Int), updated_at := now } := by
    have h := find?_replace_eq (fun x : Task => x.id) (fun x : Task => x.id == tid)
      db.tasks t { t with completed_pomodoros := (v : Int), updated_at := now }
      hndT htid rfl (by simp [hpt.1])
    simpa [findTask, saveTask] using h
  refine ⟨?_, ?_, ?_⟩
  · rw [hstep]
    simp [taskCounter, hfind]
  · rw [hstep]
    rfl
  · rw [hstep]
    exact ⟨_, rfl, rfl⟩

/-- C9 witness: setting the counter of task 1 to 5 through the update
endpoint stores and returns exactly 5. -/
theorem c9_update_task_writes_counter_witness :
    taskCounter (update_task (c1Db 0) (authOf 1) 1
        { completed_pomodoros := some 5 } c1Now).2 1 = ((5 : Nat) : Int) ∧
    (update_task (c1Db 0) (authOf 1) 1
        { completed_pomodoros := some 5 } c1Now).2.sessions = (c1Db 0).sessions ∧
    (∃ out, (update_task (c1Db 0) (authOf 1) 1
        { completed_pomodoros := some 5 } c1Now).1 = Resp.ok out ∧
      out.completed_pomodoros = ((5 : Nat) : Int)) :=
  c9_update_task_writes_counter (c1Db 0) 1 1 5
    (c1Task 0 { day := 0, tod := 0, naive := false }) c1Now
    (by decide) (by decide) (by decide)

/-- C10: a complete call with is_completed false persists the
timezone-normalized end time and the not-completed flag while leaving
the task table (hence every completed_pomodoros counter) unchanged;
consequently completing a work session, re-submitting it with
is_completed false and then deleting it leaves its task's counter one
above its initial value. -/
theorem c10_incomplete_preserves_counters
    (db : Db) (uid sid : Nat) (s : Session) (e now : DTime) (c0 : Nat)
    (huid : uid ≠ 0)
    (hndS : (db.sessions.map (fun x => x.id)).Nodup)
    (hs : findSessionOf db uid sid = some s) :
    (complete_session db (authOf uid) sid e false now).2.tasks = db.tasks ∧
    findSessionOf (complete_session db (authOf uid) sid e false now).2 uid sid =
      some { s with end_time := some (if e.naive then make_aware e else e),
                    is_completed := false } ∧
    taskCounter (c1Run [C1Op.complete true, C1Op.complete false, C1Op.del] (c1Db c0)) 1 =
      (c0 : Int) + 1 := by
  have hbeq := beq_zero_false_of_ne huid
  have hs' : db.sessions.find? (fun x => x.id == sid && x.user_id == uid) = some s := hs
  have hps : s.id = sid ∧ s.user_id = uid := by simpa using List.find?_some hs'
  have hstep : (complete_session db (authOf uid) sid e false now).2 =
      saveSession db { s with end_time := some (if e.naive then make_aware e else e),
                              is_completed := false } := by
    simp only [complete_session, get_user_id_from_token, authOf, jwtDecode,
      Bool.not_false, Bool.and_self, if_true, hbeq, Bool.false_eq_true, if_false, hs]
    simp
  refine ⟨by rw [hstep]; rfl, ?_, ?_⟩
  · rw [hstep]
    have h := find?_replace_eq (fun x : Session => x.id)
      (fun x : Session => x.id == sid && x.user_id == uid)
      db.sessions s
      { s with end_time := some (if e.naive then make_aware e else e), is_completed := false }
      hndS hs' rfl (by simp [hps.1, hps.2])
    simpa [findSessionOf, saveSession] using h
  · rw [show c1Db c0 =
        c1StateDb (c0 : Int) { day := 0, tod := 0, naive := false } false none from rfl]
    rw [c1Run, c1_step_complete_true, c1Run, c1_step_complete_false, c1Run,
      c1_step_del_false, c1Run, c1_counter_dead]

/-- C10 witness: in the one-task one-session database, complete with
is_completed false keeps the task table intact and stores the end time;
the complete-then-uncomplete-then-delete sequence ends with counter 5
from initial 4. -/
theorem c10_incomplete_preserves_counters_witness :
    (complete_session (c1Db 0) (authOf 1) 1 c1E false c1Now).2.tasks = (c1Db 0).tasks ∧
    findSessionOf (complete_session (c1Db 0) (authOf 1) 1 c1E false c1Now).2 1 1 =
      some { c1Session false none with
              end_time := some (if c1E.naive then make_aware c1E else c1E),
              is_completed := false } ∧
    taskCounter (c1Run [C1Op.complete true, C1Op.complete false, C1Op.del] (c1Db 4)) 1 =
      ((4 : Nat) : Int) + 1 :=
  c10_incomplete_preserves_counters (c1Db 0) 1 1 (c1Session false none) c1E c1Now 4
    (by decide) (by decide) (by decide)

lemma streakLoop_eq (hasW : Int → Bool) :
    ∀ (k fuel : Nat) (d : Int), k < fuel →
      (∀ i : Nat, i < k → hasW (d - (i : Int)) = true) →
      hasW (d - (k : Int)) = false →
      streakLoop hasW fuel d = k := by
  intro k
  induction k with
  | zero =>
    intro fuel d hf hrun hstop
    cases fuel with
    | zero => omega
    | succ m =>
      have h0 : hasW d = false := by simpa using hstop
      simp [streakLoop, h0]
  | succ k ih =>
    intro fuel d hf hrun hstop
    cases fuel with
    | zero => omega
    | succ m =>
      have hd : hasW d = true := by simpa using hrun 0 (Nat.succ_pos k)
      have hrun2 : ∀ i : Nat, i < k → hasW (d - 1 - (i : Int)) = true := by
        intro i hi
        have hx := hrun (i + 1) (by omega)
        have harith : d - ((i + 1 : Nat) : Int) = d - 1 - (i : Int) := by push_cast; ring
        rwa [harith] at hx
      have hstop2 : hasW (d - 1 - (k : Int)) = false := by
        have harith : d - ((k + 1 : Nat) : Int) = d - 1 - (k : Int) := by push_cast; ring
        rwa [harith] at hstop
      have hrec := ih m (d - 1) (by omega) hrun2 hstop2
      simp [streakLoop, hd, hrec]

/-- C6: the dashboard streak equals the number of consecutive calendar
days counted backward from the window's end date, each with at least
one completed work session, stopping at the first day with none
(whenever that stopping day falls inside the window). -/
theorem c6_streak (db : Db) (uid : Nat) (today : Int) (days k : Nat)
    (hk : k ≤ days)
    (hrun : ∀ i : Nat, i < k → hasWorkOn db uid (today - (i : Int)) = true)
    (hstop : hasWorkOn db uid (today - (k : Int)) = false) :
    (get_analytics db uid today days).productivity_stats.streak = k := by
  have hproj : (get_analytics db uid today days).productivity_stats.streak =
      streakLoop (hasWorkOn db uid) (days + 1) today := by
    simp only [get_analytics]
  rw [hproj]
  exact streakLoop_eq (hasWorkOn db uid) k (days + 1) today (by omega) hrun hstop

/-- One completed work session of user 1 on the given day. -/
def c6Session (i : Nat) (d : Int) : Session :=
  { id := i, user_id := 1, task_id := none
    start_time := { day := d, tod := 0, naive := false }
    end_time := none, duration := 1500, type := "work", is_completed := true }

/-- Completed work sessions on days 10, 9 and 8 but not on day 7. -/
def c6Db : Db :=
  { users := [{ id := 1, username := "u", email := "u@example.com" }]
    tasks := [], categories := [], tags := []
    sessions := [c6Session 1 10, c6Session 2 9, c6Session 3 8] }

/-- C6 witness: completed work sessions on days D, D-1, D-2 but not
D-3 give streak 3 (D = 10, window 30 days). -/
theorem c6_streak_witness :
    ((3 : Nat) ≤ 30 ∧ hasWorkOn c6Db 1 (10 - ((3 : Nat) : Int)) = false) ∧
    (get_analytics c6Db 1 10 30).productivity_stats.streak = 3 :=
  ⟨⟨by decide, by decide⟩,
    c6_streak c6Db 1 10 30 3 (by decide) (by decide) (by decide)⟩

lemma chLt_irrefl : ∀ l : List Char, chLt l l = false
  | [] => rfl
  | a :: as => by
    have h : ¬ a < a := lt_irrefl a
    simp [chLt, h, chLt_irrefl as]

lemma chLt_trans : ∀ (x y z : List Char),
    chLt x y = true → chLt y z = true → chLt x z = true := by
  intro x
  induction x with
  | nil =>
    intro y z hxy hyz
    cases y with
    | nil => simp [chLt] at hxy
    | cons b bs =>
      cases z with
      | nil => simp [chLt] at hyz
      | cons c cs => simp [chLt]
  | cons a as ih =>
    intro y z hxy hyz
    cases y with
    | nil => simp [chLt] at hxy
    | cons b bs =>
      cases z with
      | nil => simp [chLt] at hyz
      | cons c cs =>
        simp only [chLt] at hxy hyz ⊢
        by_cases hab : a < b
        · by_cases hbc : b < c
          · simp [lt_trans hab hbc]
          · by_cases hcb : c < b
            · simp [hbc, hcb] at hyz
            · have hbceq : b = c := le_antisymm (not_lt.1 hcb) (not_lt.1 hbc)
              subst hbceq
              simp [hab]
        · by_cases hba : b < a
          · simp [hab, hba] at hxy
          · have habeq : a = b := le_antisymm (not_lt.1 hba) (not_lt.1 hab)
            subst habeq
            simp only [lt_irrefl, if_false, if_neg (lt_irrefl a)] at hxy
            by_cases hac : a < c
            · simp [hac]
            · by_cases hca : c < a
              · simp [hac, hca] at hyz
              · have haceq : a = c := le_antisymm (not_lt.1 hca) (not_lt.1 hac)
                subst haceq
                simp only [lt_irrefl, if_false, if_neg (lt_irrefl a)] at hyz ⊢
                exact ih bs cs hxy hyz

lemma chLt_eq_of_not : ∀ (x y : List Char),
    chLt x y = false → chLt y x = false → x = y
  | [], [], _, _ => rfl
  | [], _ :: _, h1, _ => by simp [chLt] at h1
  | _ :: _, [], _, h2 => by simp [chLt] at h2
  | a :: as, b :: bs, h1, h2 => by
    by_cases hab : a < b
    · simp [chLt, hab] at h1
    · by_cases hba : b < a
      · simp [chLt, hba, hab] at h2
      · have habeq : a = b := le_antisymm (not_lt.1 hba) (not_lt.1 hab)
        subst habeq
        have h1x : chLt as bs = false := by
          simpa [chLt, lt_irrefl] using h1
        have h2x : chLt bs as = false := by
          simpa [chLt, lt_irrefl] using h2
        rw [chLt_eq_of_not as bs h1x h2x]

lemma strLtB_irrefl (s : String) : strLtB s s = false := chLt_irrefl s.data

lemma strLtB_trans {a b c : String} (h1 : strLtB a b = true) (h2 : strLtB b c = true) :
    strLtB a c = true := chLt_trans a.data b.data c.data h1 h2

lemma strLtB_eq_of_not {a b : String} (h1 : strLtB a b = false) (h2 : strLtB b a = false) :
    a = b := by
  have h := chLt_eq_of_not a.data b.data h1 h2
  cases a
  cases b
  exact congrArg String.mk (by simpa using h)

lemma dueLtB_irrefl (a : Option Int) : dueLtB a a = false := by
  cases a <;> simp [dueLtB]

lemma dueLtB_trans {a b c : Option Int} (h1 : dueLtB a b = true) (h2 : dueLtB b c = true) :
    dueLtB a c = true := by
  cases a <;> cases b <;> cases c <;> simp_all [dueLtB]
  omega

lemma dueLtB_eq_of_not {a b : Option Int} (h1 : dueLtB a b = false) (h2 : dueLtB b a = false) :
    a = b := by
  cases a <;> cases b <;> simp_all [dueLtB]
  omega

lemma dtLeB_total (a b : DTime) : dtLeB a b = true ∨ dtLeB b a = true := by
  simp only [dtLeB, Bool.or_eq_true, Bool.and_eq_true, decide_eq_true_eq]
  omega

lemma dtLeB_trans {a b c : DTime} (h1 : dtLeB a b = true) (h2 : dtLeB b c = true) :
    dtLeB a c = true := by
  simp only [dtLeB, Bool.or_eq_true, Bool.and_eq_true, decide_eq_true_eq] at h1 h2 ⊢
  omega

instance : IsTotal Task taskLe := by
  constructor
  intro a b
  by_cases h1 : strLtB b.priority a.priority = true
  · exact Or.inl (by simp [taskLe, taskLeB, h1])
  by_cases h2 : strLtB a.priority b.priority = true
  · exact Or.inr (by simp [taskLe, taskLeB, h2])
  replace h1 := Bool.eq_false_iff.mpr h1
  replace h2 := Bool.eq_false_iff.mpr h2
  by_cases h3 : dueLtB a.due_date b.due_date = true
  · exact Or.inl (by simp [taskLe, taskLeB, h1, h2, h3])
  by_cases h4 : dueLtB b.due_date a.due_date = true
  · exact Or.inr (by simp [taskLe, taskLeB, h1, h2, h4])
  replace h3 := Bool.eq_false_iff.mpr h3
  replace h4 := Bool.eq_false_iff.mpr h4
  rcases dtLeB_total a.created_at b.created_at with h | h
  · exact Or.inl (by simp [taskLe, taskLeB, h1, h2, h3, h4, h])
  · exact Or.inr (by simp [taskLe, taskLeB, h1, h2, h3, h4, h])

instance : IsTrans Task taskLe := by
  constructor
  intro a b c hab hbc
  unfold taskLe taskLeB at hab hbc ⊢
  by_cases pba : strLtB b.priority a.priority = true
  · by_cases pcb : strLtB c.priority b.priority = true
    · simp [strLtB_trans pcb pba]
    · have pcb2 := Bool.eq_false_iff.mpr pcb
      by_cases pbc : strLtB b.priority c.priority = true
      · simp [pcb2, pbc] at hbc
      · have pbc2 := Bool.eq_false_iff.mpr pbc
        have heq : b.priority = c.priority := strLtB_eq_of_not pbc2 pcb2
        rw [← heq]
        simp [pba]
  · have pba2 := Bool.eq_false_iff.mpr pba
    by_cases pab : strLtB a.priority b.priority = true
    · simp [pba2, pab] at hab
    · have pab2 := Bool.eq_false_iff.mpr pab
      have heqab : a.priority = b.priority := strLtB_eq_of_not pab2 pba2
      by_cases pcb : strLtB c.priority b.priority = true
      · rw [heqab]
        simp [pcb]
      · have pcb2 := Bool.eq_false_iff.mpr pcb
        by_cases pbc : strLtB b.priority c.priority = true
        · simp [pcb2, pbc] at hbc
        · have pbc2 := Bool.eq_false_iff.mpr pbc
          have heqbc : b.priority = c.priority := strLtB_eq_of_not pbc2 pcb2
          simp only [pba2, pab2, Bool.false_eq_true, if_false] at hab
          simp only [pcb2, pbc2, Bool.false_eq_true, if_false] at hbc
          rw [heqab, heqbc]
          simp only [strLtB_irrefl, Bool.false_eq_true, if_false]
          by_cases d1 : dueLtB a.due_date b.due_date = true
          · by_cases d2 : dueLtB b.due_date c.due_date = true
            · simp [dueLtB_trans d1 d2]
            · have d2x := Bool.eq_false_iff.mpr d2
              by_cases d3 : dueLtB c.due_date b.due_date = true
              · simp [d2x, d3] at hbc
              · have d3x := Bool.eq_false_iff.mpr d3
                have hdeq : b.due_date = c.due_date := dueLtB_eq_of_not d2x d3x
                rw [← hdeq]
                simp [d1]
          · have d1x := Bool.eq_false_iff.mpr d1
            by_cases d4 : dueLtB b.due_date a.due_date = true
            · simp [d1x, d4] at hab
            · have d4x := Bool.eq_false_iff.mpr d4
              have hdab : a.due_date = b.due_date := dueLtB_eq_of_not d1x d4x
              by_cases d2 : dueLtB b.due_date c.due_date = true
              · rw [hdab]
                simp [d2]
              · have d2x := Bool.eq_false_iff.mpr d2
                by_cases d3 : dueLtB c.due_date b.due_date = true
                · simp [d2x, d3] at hbc
                · have d3x := Bool.eq_false_iff.mpr d3
                  have hdbc : b.due_date = c.due_date := dueLtB_eq_of_not d2x d3x
                  rw [hdab, hdbc]
                  simp only [dueLtB_irrefl, Bool.false_eq_true, if_false]
                  simp only [d1x, d4x, Bool.false_eq_true, if_false] at hab
                  simp only [d2x, d3x, Bool.false_eq_true, if_false] at hbc
                  exact dtLeB_trans hab hbc

/-- C3 counterexample: with days = 7 and no sessions at all, the
dashboard's Pomodoro time series has 8 entries, not the 7 the claim
states (the window end_date minus 7 days through end_date is inclusive
on both ends). -/
theorem c3_counterexample :
    (get_analytics c3EmptyDb 1 0 7).pomodoro_time_series.length = 8 ∧
    ¬ ((get_analytics c3EmptyDb 1 0 7).pomodoro_time_series.length = 7) := by
  decide

/-- C3 amended: for a window parameter of N days the two dashboard time
series each contain exactly N + 1 entries (one per calendar day from
end_date minus N through end_date inclusive); with days = 7 and no
sessions both series have 8 entries, all values 0, total_pomodoros 0,
daily_average 0.0 and streak 0. -/
theorem c3_series_lengths :
    (∀ (db : Db) (uid : Nat) (today : Int) (days : Nat),
      (get_analytics db uid today days).pomodoro_time_series.length = days + 1 ∧
      (get_analytics db uid today days).task_completion_time_series.length = days + 1) ∧
    ((get_analytics c3EmptyDb 1 0 7).pomodoro_time_series.map
        (fun p => p.value) = List.replicate 8 0 ∧
      (get_analytics c3EmptyDb 1 0 7).task_completion_time_series.map
        (fun p => p.value) = List.replicate 8 0 ∧
      (get_analytics c3EmptyDb 1 0 7).productivity_stats.total_pomodoros = 0 ∧
      (get_analytics c3EmptyDb 1 0 7).productivity_stats.daily_average_tenths = 0 ∧
      (get_analytics c3EmptyDb 1 0 7).productivity_stats.streak = 0) := by
  refine ⟨fun db uid today days => ⟨?_, ?_⟩, by decide⟩ <;>
    (simp only [get_analytics]; rw [List.length_map, List.length_range])

/-- C4 counterexample: with one high-priority and one medium-priority
task (all other sort keys equal or favoring the high task), the list
endpoint returns the medium task first: ORDER BY priority descending
compares the CharField strings, and the word medium is
lexicographically greater than the word high. -/
theorem c4_counterexample :
    list_tasks c4Db (authOf 1) none none none none =
      .ok [taskToOut c4Db c4TaskMed, taskToOut c4Db c4TaskHigh] ∧
    c4TaskMed.priority = "medium" ∧ c4TaskHigh.priority = "high" := by
  decide

/-- C4 amended: the task list endpoint returns exactly the requesting
user's tasks, as the image of a list that is a permutation of them and
is sorted by the ORDER BY relation taskLe: priority descending under
lexicographic string comparison (so medium before low before high),
then due date ascending with missing dates first, then creation time
ascending. -/
theorem c4_list_tasks_ordering (db : Db) (uid : Nat) (huid : uid ≠ 0) :
    (List.insertionSort taskLe (db.tasks.filter (fun t => t.user_id == uid))).Perm
      (db.tasks.filter (fun t => t.user_id == uid)) ∧
    List.Sorted taskLe
      (List.insertionSort taskLe (db.tasks.filter (fun t => t.user_id == uid))) ∧
    list_tasks db (authOf uid) none none none none =
      Resp.ok ((List.insertionSort taskLe
        (db.tasks.filter (fun t => t.user_id == uid))).map (taskToOut db)) := by
  refine ⟨List.perm_insertionSort _ _, List.sorted_insertionSort _ _, ?_⟩
  have hbeq := beq_zero_false_of_ne huid
  simp only [list_tasks, get_user_id_from_token, authOf, jwtDecode,
    Bool.not_false, Bool.and_self, if_true, hbeq, Bool.false_eq_true, if_false]

/-- C4 amended witness: the two-task database instantiates the ordering
statement at user 1. -/
theorem c4_list_tasks_ordering_witness :
    (List.insertionSort taskLe (c4Db.tasks.filter (fun t => t.user_id == 1))).Perm
      (c4Db.tasks.filter (fun t => t.user_id == 1)) ∧
    List.Sorted taskLe
      (List.insertionSort taskLe (c4Db.tasks.filter (fun t => t.user_id == 1))) ∧
    list_tasks c4Db (authOf 1) none none none none =
      Resp.ok ((List.insertionSort taskLe
        (c4Db.tasks.filter (fun t => t.user_id == 1))).map (taskToOut c4Db)) :=
  c4_list_tasks_ordering c4Db 1 (by decide)

/-- C7 counterexample: GET /auth/user with no Authorization header at
all but an explicit user_id query parameter returns that user's profile
instead of 401: the handler skips token verification whenever user_id
is supplied. -/
theorem c7_counterexample :
    get_user c7Db (some 1) AuthHeader.missing =
      Resp.ok { id := 1, username := "alice", email := "alice@example.com" } := by
  decide

/-- C5: ownership isolation over the embedded CRUD handlers: with a
task, session, category and tag all owned by user A, every get, update
and delete issued under user B's identity (A distinct from B) answers
not-found and leaves the database unchanged, and the list endpoints
under B never include A's resources. -/
theorem c5_ownership_isolation
    (db : Db) (A B : Nat) (t : Task) (s : Session) (c : Category) (g : TagRec)
    (d : TaskUpdateData) (e now : DTime) (bFlag : Bool) (nm col : String)
    (hAB : A ≠ B) (hB : B ≠ 0)
    (hndT : (db.tasks.map (fun x => x.id)).Nodup)
    (hndS : (db.sessions.map (fun x => x.id)).Nodup)
    (hndC : (db.categories.map (fun x => x.id)).Nodup)
    (hndG : (db.tags.map (fun x => x.id)).Nodup)
    (ht : t ∈ db.tasks) (htA : t.user_id = A)
    (hs : s ∈ db.sessions) (hsA : s.user_id = A)
    (hc : c ∈ db.categories) (hcA : c.user_id = A)
    (hg : g ∈ db.tags) (hgA : g.user_id = A) :
    get_task db (authOf B) t.id = Resp.notFound ∧
    update_task db (authOf B) t.id d now = (Resp.notFound, db) ∧
    delete_task db (authOf B) t.id = (Resp.notFound, db) ∧
    complete_session db (authOf B) s.id e bFlag now = (Resp.notFound, db) ∧
    delete_session db (authOf B) s.id now = (Resp.notFound, db) ∧
    update_category db (authOf B) c.id nm col = (Resp.notFound, db) ∧
    delete_category db (authOf B) c.id = (Resp.notFound, db) ∧
    update_tag db (authOf B) g.id nm col = (Resp.notFound, db) ∧
    delete_tag db (authOf B) g.id = (Resp.notFound, db) ∧
    list_tasks db (authOf B) none none none none =
      Resp.ok ((List.insertionSort taskLe
        (db.tasks.filter (fun x => x.user_id == B))).map (taskToOut db)) ∧
    t ∉ db.tasks.filter (fun x => x.user_id == B) ∧
    list_categories db (authOf B) =
      Resp.ok (db.categories.filter (fun x => x.user_id == B)) ∧
    c ∉ db.categories.filter (fun x => x.user_id == B) ∧
    list_tags db (authOf B) = Resp.ok (db.tags.filter (fun x => x.user_id == B)) ∧
    g ∉ db.tags.filter (fun x => x.user_id == B) := by
  have hbeq := beq_zero_false_of_ne hB
  have hOwnT : ¬ t.user_id = B := fun hh => hAB (htA.symm.trans hh)
  have hOwnS : ¬ s.user_id = B := fun hh => hAB (hsA.symm.trans hh)
  have hOwnC : ¬ c.user_id = B := fun hh => hAB (hcA.symm.trans hh)
  have hOwnG : ¬ g.user_id = B := fun hh => hAB (hgA.symm.trans hh)
  have hfT : findTaskOf db B t.id = none :=
    find?_owner_none (fun x : Task => x.id) (fun x => x.user_id) db.tasks t B hndT ht hOwnT
  have hfS : findSessionOf db B s.id = none :=
    find?_owner_none (fun x : Session => x.id) (fun x => x.user_id) db.sessions s B
      hndS hs hOwnS
  have hfC : findCategoryOf db B c.id = none :=
    find?_owner_none (fun x : Category => x.id) (fun x => x.user_id) db.categories c B
      hndC hc hOwnC
  have hfG : findTagOf db B g.id = none :=
    find?_owner_none (fun x : TagRec => x.id) (fun x => x.user_id) db.tags g B
      hndG hg hOwnG
  refine ⟨?_, ?_, ?_, ?_, ?_, ?_, ?_, ?_, ?_, ?_, ?_, ?_, ?_, ?_, ?_⟩
  · simp only [get_task, get_user_id_from_token, authOf, jwtDecode, Bool.not_false,
      Bool.and_self, if_true, hbeq, Bool.false_eq_true, if_false, hfT]
  · simp only [update_task, get_user_id_from_token, authOf, jwtDecode, Bool.not_false,
      Bool.and_self, if_true, hbeq, Bool.false_eq_true, if_false, hfT]
  · simp only [delete_task, get_user_id_from_token, authOf, jwtDecode, Bool.not_false,
      Bool.and_self, if_true, hbeq, Bool.false_eq_true, if_false, hfT]
  · simp only [complete_session, get_user_id_from_token, authOf, jwtDecode, Bool.not_false,
      Bool.and_self, if_true, hbeq, Bool.false_eq_true, if_false, hfS]
  · simp only [delete_session, get_user_id_from_token, authOf, jwtDecode, Bool.not_false,
      Bool.and_self, if_true, hbeq, Bool.false_eq_true, if_false, hfS]
  · simp only [update_category, get_user_id_from_token, authOf, jwtDecode, Bool.not_false,
      Bool.and_self, if_true, hbeq, Bool.false_eq_true, if_false, hfC]
  · simp only [delete_category, get_user_id_from_token, authOf, jwtDecode, Bool.not_false,
      Bool.and_self, if_true, hbeq, Bool.false_eq_true, if_false, hfC]
  · simp only [update_tag, get_user_id_from_token, authOf, jwtDecode, Bool.not_false,
      Bool.and_self, if_true, hbeq, Bool.false_eq_true, if_false, hfG]
  · simp only [delete_tag, get_user_id_from_token, authOf, jwtDecode, Bool.not_false,
      Bool.and_self, if_true, hbeq, Bool.false_eq_true, if_false, hfG]
  · simp only [list_tasks, get_user_id_from_token, authOf, jwtDecode, Bool.not_false,
      Bool.and_self, if_true, hbeq, Bool.false_eq_true, if_false]
  · simp [List.mem_filter, hOwnT]
  · simp only [list_categories, get_user_id_from_token, authOf, jwtDecode, Bool.not_false,
      Bool.and_self, if_true, hbeq, Bool.false_eq_true, if_false]
  · simp [List.mem_filter, hOwnC]
  · simp only [list_tags, get_user_id_from_token, authOf, jwtDecode, Bool.not_false,
      Bool.and_self, if_true, hbeq, Bool.false_eq_true, if_false]
  · simp [List.mem_filter, hOwnG]

/-- Two users; user 1 owns one task, session, category and tag. -/
def c5Db : Db :=
  { users := [{ id := 1, username := "a", email := "a@example.com" },
              { id := 2, username := "b", email := "b@example.com" }]
    tasks := [c4TaskHigh]
    categories := [{ id := 1, user_id := 1, name := "w", color_code := "#e53e3e" }]
    tags := [{ id := 1, user_id := 1, name := "i", color_code := "#3b82f6" }]
    sessions := [c1Session false none] }

/-- C5 witness: user 2 cannot see or mutate any of user 1's resources
in the two-user database. -/
theorem c5_ownership_isolation_witness :
    get_task c5Db (authOf 2) c4TaskHigh.id = Resp.notFound ∧
    update_task c5Db (authOf 2) c4TaskHigh.id
      { completed_pomodoros := some 9 } c1Now = (Resp.notFound, c5Db) ∧
    delete_task c5Db (authOf 2) c4TaskHigh.id = (Resp.notFound, c5Db) ∧
    complete_session c5Db (authOf 2) (c1Session false none).id c1E true c1Now =
      (Resp.notFound, c5Db) ∧
    delete_session c5Db (authOf 2) (c1Session false none).id c1Now =
      (Resp.notFound, c5Db) ∧
    update_category c5Db (authOf 2)
      ({ id := 1, user_id := 1, name := "w", color_code := "#e53e3e" } : Category).id
      "x" "#000000" = (Resp.notFound, c5Db) ∧
    delete_category c5Db (authOf 2)
      ({ id := 1, user_id := 1, name := "w", color_code := "#e53e3e" } : Category).id =
      (Resp.notFound, c5Db) ∧
    update_tag c5Db (authOf 2)
      ({ id := 1, user_id := 1, name := "i", color_code := "#3b82f6" } : TagRec).id
      "x" "#000000" = (Resp.notFound, c5Db) ∧
    delete_tag c5Db (authOf 2)
      ({ id := 1, user_id := 1, name := "i", color_code := "#3b82f6" } : TagRec).id =
      (Resp.notFound, c5Db) ∧
    list_tasks c5Db (authOf 2) none none none none =
      Resp.ok ((List.insertionSort taskLe
        (c5Db.tasks.filter (fun x => x.user_id == 2))).map (taskToOut c5Db)) ∧
    c4TaskHigh ∉ c5Db.tasks.filter (fun x => x.user_id == 2) ∧
    list_categories c5Db (authOf 2) =
      Resp.ok (c5Db.categories.filter (fun x => x.user_id == 2)) ∧
    ({ id := 1, user_id := 1, name := "w", color_code := "#e53e3e" } : Category) ∉
      c5Db.categories.filter (fun x => x.user_id == 2) ∧
    list_tags c5Db (authOf 2) = Resp.ok (c5Db.tags.filter (fun x => x.user_id == 2)) ∧
    ({ id := 1, user_id := 1, name := "i", color_code := "#3b82f6" } : TagRec) ∉
      c5Db.tags.filter (fun x => x.user_id == 2) :=
  c5_ownership_isolation c5Db 1 2 c4TaskHigh (c1Session false none)
    { id := 1, user_id := 1, name := "w", color_code := "#e53e3e" }
    { id := 1, user_id := 1, name := "i", color_code := "#3b82f6" }
    { completed_pomodoros := some 9 } c1E c1Now true "x" "#000000"
    (by decide) (by decide) (by decide) (by decide) (by decide) (by decide)
    (by decide) (by decide) (by decide) (by decide) (by decide) (by decide)
    (by decide) (by decide)

/-- C7 amended: every handler that derives its identity from the
bearer token fails closed, answering 401 and touching nothing, whenever
the token is absent, malformed, wrongly signed or expired; but the
profile route, given an explicit user_id query parameter, returns that
user's profile without any token verification at all. -/
theorem c7_auth_fail_closed
    (db : Db) (h : AuthHeader) (sid : Nat) (e now : DTime) (bFlag : Bool)
    (today : Int) (days : Nat) (uid : Nat) (u : UserRec)
    (hbad : get_user_id_from_token h = none)
    (hu : findUser db uid = some u) :
    get_user db none h = Resp.unauthorized ∧
    list_tasks db h none none none none = Resp.unauthorized ∧
    get_task db h sid = Resp.unauthorized ∧
    complete_session db h sid e bFlag now = (Resp.unauthorized, db) ∧
    delete_session db h sid now = (Resp.unauthorized, db) ∧
    dashboard_route db h today days = Resp.unauthorized ∧
    get_user db (some uid) h =
      Resp.ok { id := u.id, username := u.username, email := u.email } := by
  have hbad2 : authBearer h = none := hbad
  refine ⟨?_, ?_, ?_, ?_, ?_, ?_, ?_⟩
  · simp only [get_user, hbad]
  · simp only [list_tasks, hbad]
  · simp only [get_task, hbad]
  · simp only [complete_session, hbad]
  · simp only [delete_session, hbad]
  · simp only [dashboard_route, hbad2]
  · simp only [get_user, hu]

/-- C7 amended witness: with no Authorization header every token-gated
handler answers 401 on the one-user database, while the profile route
with user_id 1 hands out the profile anyway. -/
theorem c7_auth_fail_closed_witness :
    get_user c7Db none AuthHeader.missing = Resp.unauthorized ∧
    list_tasks c7Db AuthHeader.missing none none none none = Resp.unauthorized ∧
    get_task c7Db AuthHeader.missing 1 = Resp.unauthorized ∧
    complete_session c7Db AuthHeader.missing 1 c1E true c1Now =
      (Resp.unauthorized, c7Db) ∧
    delete_session c7Db AuthHeader.missing 1 c1Now = (Resp.unauthorized, c7Db) ∧
    dashboard_route c7Db AuthHeader.missing 0 7 = Resp.unauthorized ∧
    get_user c7Db (some 1) AuthHeader.missing =
      Resp.ok { id := 1, username := "alice", email := "alice@example.com" } :=
  c7_auth_fail_closed c7Db AuthHeader.missing 1 c1E c1Now true 0 7 1
    { id := 1, username := "alice", email := "alice@example.com" }
    (by decide) (by decide)

/-- C8: the date-range endpoint ignores the calendar placement of the
requested range.  With today = day 100 and the range day 0 through
day 2 (holding the only completed work session, on day 1), the handler
reports 0 total Pomodoros because it delegates to the dashboard's
trailing window, which here spans days 97 through 100; the
spec-modelled explicit-window aggregation reports 1.  The series the
code returns also has 4 entries for the 3-day range. -/
theorem c8_code_divergence :
    (get_analytics_by_date_range c8Db 1 100 0 2).productivity_stats.total_pomodoros = 0 ∧
    (date_range_analytics_spec c8Db 1 0 2).productivity_stats.total_pomodoros = 1 ∧
    (get_analytics_by_date_range c8Db 1 100 0 2).pomodoro_time_series.map
      (fun p => p.date) = [97, 98, 99, 100] := by
  decide

end PomodoroApi
